import Mathlib

/-!
Verification of `hassil/intents.py`: a shallow embedding of the intent-file
data model (slot lists, intent data, the Intents aggregate) and the operations
on it (slot-list decoding, entity filtering, sentence prioritization,
document building), together with theorems settling the specified properties.

External collaborators (`util.py`, `parse_expression.py`, `expression.py`)
are not part of the analysed source; where needed they are modelled from the
specification and marked as such.
-/

namespace Hassil

/-- Characters used for template syntax; braces written via code points. -/
def lbraceChar : Char := Char.ofNat 123

/-- Closing brace character (code point 125). -/
def rbraceChar : Char := Char.ofNat 125

/-- Modelled from the spec: the Text Normalizer collaborator's
`is_template(text)` (template-syntax detection; `util.py` is not in the
analysed source). A string is a template iff it contains one of the
template metacharacters. -/
def is_template (text : String) : Bool :=
  text.data.any (fun c =>
    c = lbraceChar || c = rbraceChar || c = '<' || c = '>' ||
    c = '(' || c = ')' || c = '[' || c = ']')

/-- Helper for `normalize_text`: collapse whitespace runs to single spaces.
The flag records whether the previous character was whitespace. -/
def normAux : List Char → Bool → List Char
  | [], _ => []
  | c :: rest, prevWs =>
    if c.isWhitespace then
      if prevWs then normAux rest true else ' ' :: normAux rest true
    else c :: normAux rest false

/-- Modelled from the spec: the Text Normalizer collaborator's
`normalize(text)` (literal-text normalization; `util.py` is not in the
analysed source). -/
def normalize_text (text : String) : String :=
  String.mk (normAux text.data false)

/-- One item of a parsed sentence template: a literal text chunk or a
reference to a named slot list. -/
inductive ChunkOrRef where
  | chunk (text : String)
  | listRef (name : String)
deriving DecidableEq

/-- A parsed sentence template (the `Sentence` expression produced by the
Template Parser collaborator; `expression.py` is not in the analysed
source). `text` holds the source text when parsing kept it. -/
structure Sentence where
  items : List ChunkOrRef
  text : Option String
deriving DecidableEq

/-- Scanner state machine for the modelled Template Parser: outside braces,
characters accumulate into literal chunks; between braces they accumulate
into a list-reference name. `inRef` is the state, `acc` the accumulator
(in order). -/
def scanAux : List Char → Bool → List Char → List ChunkOrRef
  | [], inRef, acc =>
    if acc.isEmpty then []
    else if inRef then [ChunkOrRef.listRef (String.mk acc)]
    else [ChunkOrRef.chunk (String.mk acc)]
  | c :: rest, false, acc =>
    if c = lbraceChar then
      if acc.isEmpty then scanAux rest true []
      else ChunkOrRef.chunk (String.mk acc) :: scanAux rest true []
    else scanAux rest false (acc ++ [c])
  | c :: rest, true, acc =>
    if c = rbraceChar then
      ChunkOrRef.listRef (String.mk acc) :: scanAux rest false []
    else scanAux rest true (acc ++ [c])

/-- Modelled from the spec: the Template Parser collaborator's
`parse_sentence(text, keep_text)` (`parse_expression.py` is not in the
analysed source). Splits the text into literal chunks and braced list
references; keeps the source text when asked. -/
def parse_sentence (text : String) (keep_text : Bool) : Sentence :=
  { items := scanAux text.data false []
    text := if keep_text then some text else none }

/-- Names of the slot lists referenced by a sentence
(`Sentence.list_names` of the expression collaborator). -/
def Sentence.list_names (s : Sentence) : List String :=
  s.items.filterMap (fun i =>
    match i with
    | ChunkOrRef.listRef name => some name
    | _ => none)

/-- Number of literal text chunks in a sentence
(`Sentence.text_chunk_count` of the expression collaborator). -/
def Sentence.text_chunk_count (s : Sentence) : Nat :=
  (s.items.filter (fun i =>
    match i with
    | ChunkOrRef.chunk _ => true
    | _ => false)).length

/-- An expression: either a literal `TextChunk` or a parsed `Sentence`
(the two `Expression` shapes `intents.py` produces via
`_maybe_parse_template`). -/
inductive Expression where
  | textChunk (text : String)
  | sentence (s : Sentence)
deriving DecidableEq

/-- Embeds `_maybe_parse_template` (intents.py:447-452): parse as a template
if allowed and the text has template syntax, otherwise a normalized literal
chunk. -/
def _maybe_parse_template (text : String) (allow_template : Bool) : Expression :=
  if allow_template && is_template text then
    Expression.sentence (parse_sentence text false)
  else
    Expression.textChunk (normalize_text text)

/-- A dynamically-typed scalar as stored in slot values and context
mappings (Python `Any` restricted to the shapes the intent files use). -/
inductive PyValue where
  | str (s : String)
  | int (n : Int)
  | bool (b : Bool)
deriving DecidableEq

/-- Python `d.get(key, dflt)` on a context mapping (a `Dict[str, Any]`,
represented as an association list in insertion order). -/
def ctxGet (d : List (String × PyValue)) (key : String) (dflt : PyValue) : PyValue :=
  match d.find? (fun kv => kv.1 = key) with
  | some kv => kv.2
  | none => dflt

/-- Errors raised by the embedded code. `missingList` is the spec's
MissingListError (a `ValueError` in the source); `invalidRange` the spec's
InvalidRangeError (an `assert` in the source); `unknownListType` the spec's
UnknownListTypeError; `keyError` the spec's ValidationError (a `KeyError` on
a required dict key); `attributeError` a Python `AttributeError`;
`valueError` any other `ValueError` (e.g. an unknown `RangeType` string). -/
inductive Err where
  | missingList (name : String)
  | invalidRange (msg : String)
  | unknownListType
  | keyError (key : String)
  | attributeError (attr : String)
  | valueError (msg : String)
deriving DecidableEq

/-- Boolean success test for an `Except` result. -/
def exceptOk : Except Err α → Bool
  | Except.ok _ => true
  | Except.error _ => false

/-- Embeds `TextSlotValue` (intents.py:128-139): input expression, output
value, optional context mapping. -/
structure TextSlotValue where
  text_in : Expression
  value_out : PyValue
  context : Option (List (String × PyValue))
deriving DecidableEq

/-- Embeds `TextSlotValue.from_tuple` (intents.py:141-156): a 2- or 3-tuple
(text, value[, context]) becomes a slot value, the text going through
`_maybe_parse_template`. -/
def TextSlotValue.from_tuple
    (value_tuple : String × PyValue × Option (List (String × PyValue)))
    (allow_template : Bool) : TextSlotValue :=
  { text_in := _maybe_parse_template value_tuple.1 allow_template
    value_out := value_tuple.2.1
    context := value_tuple.2.2 }

/-- Embeds `TextSlotList` (intents.py:159-163): an ordered sequence of text
slot values. -/
structure TextSlotList where
  values : List TextSlotValue
deriving DecidableEq

/-- Embeds `TextSlotList.from_strings` (intents.py:165-182). -/
def TextSlotList.from_strings (strings : List String) (allow_template : Bool) :
    TextSlotList :=
  { values := strings.map (fun text =>
      { text_in := _maybe_parse_template text allow_template
        value_out := PyValue.str text
        context := none }) }

/-- Embeds `TextSlotList.from_tuples` (intents.py:184-199). -/
def TextSlotList.from_tuples
    (tuples : List (String × PyValue × Option (List (String × PyValue))))
    (allow_template : Bool) : TextSlotList :=
  { values := tuples.map (fun t => TextSlotValue.from_tuple t allow_template) }

/-- Embeds `RangeType` (intents.py:100-105). -/
inductive RangeType where
  | number
  | percentage
  | temperature
deriving DecidableEq

/-- Embeds the `RangeType(value)` enum coercion: an unrecognized string
raises `ValueError`. -/
def RangeType.fromStr (s : String) : Except Err RangeType :=
  if s = "number" then Except.ok RangeType.number
  else if s = "percentage" then Except.ok RangeType.percentage
  else if s = "temperature" then Except.ok RangeType.temperature
  else Except.error (Err.valueError s)

/-- Embeds `RangeSlotList` (intents.py:108-125): a validated number range.
Python ints are unbounded, so the fields are `Int`. -/
structure RangeSlotList where
  start : Int
  stop : Int
  step : Int
  type : RangeType
  digits : Bool
  words : Bool
  words_language : Option String
  words_ruleset : Option String
deriving DecidableEq

/-- Embeds `RangeSlotList.__post_init__` (intents.py:121-125) together with
dataclass construction: the three `assert`s run in order, and a failing one
raises (the spec's InvalidRangeError). -/
def RangeSlotList.mk? (start stop step : Int) (type : RangeType)
    (digits words : Bool) : Except Err RangeSlotList :=
  if decide (start < stop) = false then
    Except.error (Err.invalidRange "start must be less than stop")
  else if decide (0 < step) = false then
    Except.error (Err.invalidRange "step must be positive")
  else if (digits || words) = false then
    Except.error (Err.invalidRange "must have digits, words, or both")
  else
    Except.ok
      { start := start, stop := stop, step := step, type := type
        digits := digits, words := words
        words_language := none, words_ruleset := none }

/-- Python truthiness of an `Optional[str]`: `None` and `""` are falsy. -/
def strTruthy : Option String → Bool
  | none => false
  | some s => s ≠ ""

/-- Python truthiness of an `Optional[Dict]`: `None` and `{}` are falsy. -/
def ctxTruthy : Option (List (String × PyValue)) → Bool
  | none => false
  | some l => l ≠ []

/-- Embeds `EntitySlotFilter` (intents.py:206-211): optional domain and
device-class criteria. -/
structure EntitySlotFilter where
  domain : Option String
  device_class : Option String
deriving DecidableEq

/-- Embeds `EntitySlotFilter.apply` (intents.py:213-225): a value with falsy
context never matches; a set (truthy) domain must equal the context's
`domain` entry (default `""`), likewise for `device_class`. -/
def EntitySlotFilter.apply (f : EntitySlotFilter) (entity : TextSlotValue) : Bool :=
  match entity.context with
  | none => false
  | some ctx =>
    if ctx = [] then false
    else if strTruthy f.domain &&
        decide (ctxGet ctx "domain" (PyValue.str "") ≠ PyValue.str (f.domain.getD "")) then
      false
    else if strTruthy f.device_class &&
        decide (ctxGet ctx "device_class" (PyValue.str "") ≠ PyValue.str (f.device_class.getD "")) then
      false
    else true

/-- Embeds `EntitySlotList` (intents.py:228-236): filters plus the name of
the target `TextSlotList`, resolved at use time. -/
structure EntitySlotList where
  filters : List EntitySlotFilter
  target_name : String
deriving DecidableEq

/-- The filtering loop of `apply_filters` (intents.py:251-261): keep a value
iff some filter matches it (`skip_value` starts true and flips to false at
the first matching filter, i.e. keep iff any filter applies). -/
def filterValues (filters : List EntitySlotFilter) (values : List TextSlotValue) :
    List TextSlotValue :=
  values.filter (fun entity => filters.any (fun f => f.apply entity))

/-- Embeds the static method `EntitySlotList.apply_filters`
(intents.py:245-263) at its annotated type: a new `TextSlotList` of the
target values matched by at least one filter. -/
def EntitySlotList.apply_filters (filters : List EntitySlotFilter)
    (target : TextSlotList) : TextSlotList :=
  { values := filterValues filters target.values }

/-- Embeds `WildcardSlotList` (intents.py:202-204, no fields) and the
`SlotList` closed variant set (intents.py:96). -/
inductive SlotList where
  | text (l : TextSlotList)
  | range (l : RangeSlotList)
  | wildcard
  | entity (l : EntitySlotList)
deriving DecidableEq

/-- Python `slot_lists.get(name)` over the name-to-slot-list mapping,
represented as an association list. -/
def slotListsGet (slot_lists : List (String × SlotList)) (name : String) :
    Option SlotList :=
  (slot_lists.find? (fun kv => kv.1 = name)).map (fun kv => kv.2)

/-- A value as dynamically passed at a Python call site: `apply` hands
`apply_filters` whatever the walrus expression bound, which the type
checker cannot see. -/
inductive PyObj where
  | ofBool (b : Bool)
  | ofSlotList (l : SlotList)
deriving DecidableEq

/-- Dynamic attribute access `target.values` inside `apply_filters`
(intents.py:251): only a `TextSlotList` has a `values` attribute; anything
else raises `AttributeError`. -/
def PyObj.valuesAttr : PyObj → Except Err (List TextSlotValue)
  | PyObj.ofSlotList (SlotList.text l) => Except.ok l.values
  | _ => Except.error (Err.attributeError "values")

/-- `apply_filters` as invoked dynamically (the body of intents.py:245-263
on an arbitrary runtime argument): iterating `target.values` first resolves
the attribute, then filters. -/
def applyFiltersDyn (filters : List EntitySlotFilter) (target : PyObj) :
    Except Err TextSlotList := do
  let vs ← target.valuesAttr
  Except.ok { values := filterValues filters vs }

/-- Embeds `EntitySlotList.apply` (intents.py:238-243). In the source,
`if target := slot_lists.get(self.target_name) is None:` binds `target` to
the whole comparison `slot_lists.get(...) is None` (the walrus operator has
lower precedence than `is`), so `target` is a boolean: when the name is
absent the branch raises the MissingListError, and when it is present
`apply_filters` receives the boolean `False` instead of the resolved list. -/
def EntitySlotList.apply (esl : EntitySlotList)
    (slot_lists : List (String × SlotList)) : Except Err TextSlotList :=
  let target : Bool := (slotListsGet slot_lists esl.target_name).isNone
  if target then
    Except.error (Err.missingList esl.target_name)
  else
    applyFiltersDyn esl.filters (PyObj.ofBool target)

/-- One entry of a `values:` list in a list specification: a bare string,
or an object with `in`, `out` and optional `context`
(intents.py:386-403). -/
inductive TextValueSpec where
  | plain (s : String)
  | inOut (tin : String) (out : PyValue) (context : Option (List (String × PyValue)))
deriving DecidableEq

/-- The `range:` sub-mapping of a list specification: required `from`/`to`
integers, optional `step` and `type` (intents.py:407-415). -/
structure RangeSpec where
  rfrom : Int
  rto : Int
  step : Option Int
  type : Option String
deriving DecidableEq

/-- The `filters` entry of an `entities:` sub-mapping: absent, a single
filter object, or a sequence of them (intents.py:424-428). -/
inductive FiltersSpec where
  | single (f : EntitySlotFilter)
  | many (fs : List EntitySlotFilter)
deriving DecidableEq

/-- The `entities:` sub-mapping of a list specification
(intents.py:421-435). -/
structure EntitiesSpec where
  filters : Option FiltersSpec
  target : String
deriving DecidableEq

/-- One list specification as a mapping: each recognized key is present or
absent (intents.py:378-437 reads them with `in` / `.get`). -/
structure ListSpec where
  values : Option (List TextValueSpec)
  range : Option RangeSpec
  wildcard : Option Bool
  entities : Option EntitiesSpec
deriving DecidableEq

/-- Decodes one `values:` entry into a `TextSlotValue`
(intents.py:386-403). -/
def parseTextValue (allow_template : Bool) : TextValueSpec → TextSlotValue
  | TextValueSpec.plain s =>
    { text_in := _maybe_parse_template s allow_template
      value_out := PyValue.str s
      context := none }
  | TextValueSpec.inOut tin out context =>
    { text_in := _maybe_parse_template tin allow_template
      value_out := out
      context := context }

/-- Normalizes the `filters` entry to a list, as intents.py:424-428 does
(`None` becomes `[]`, a single object is wrapped in a list). -/
def filtersOf : Option FiltersSpec → List EntitySlotFilter
  | none => []
  | some (FiltersSpec.single f) => [f]
  | some (FiltersSpec.many fs) => fs

/-- Embeds `_parse_list` (intents.py:378-437): key precedence `values`,
then `range`, then a truthy `wildcard`, then `entities`, else the
UnknownListTypeError. -/
def _parse_list (list_dict : ListSpec) (allow_template : Bool) :
    Except Err SlotList :=
  match list_dict.values with
  | some entries =>
    Except.ok (SlotList.text { values := entries.map (parseTextValue allow_template) })
  | none =>
    match list_dict.range with
    | some range_dict => do
      let ty ← RangeType.fromStr (range_dict.type.getD "number")
      let rl ← RangeSlotList.mk? range_dict.rfrom range_dict.rto
        (range_dict.step.getD 1) ty true true
      Except.ok (SlotList.range rl)
    | none =>
      if list_dict.wildcard.getD false then
        Except.ok SlotList.wildcard
      else
        match list_dict.entities with
        | some entity_filter_dict =>
          Except.ok (SlotList.entity
            { filters := filtersOf entity_filter_dict.filters
              target_name := entity_filter_dict.target })
        | none => Except.error Err.unknownListType

/-- Embeds `IntentData` (intents.py:27-49): sentence texts plus the shared
wildcard-list-name set (a set of strings, represented as a list with
membership semantics) and the remaining per-block data. -/
structure IntentData where
  sentence_texts : List String
  slots : List (String × PyValue)
  response : Option String
  requires_context : List (String × PyValue)
  excludes_context : List (String × PyValue)
  expansion_rules : List (String × Sentence)
  wildcard_list_names : List String
deriving DecidableEq

/-- Embeds `IntentData._sentence_order` (intents.py:72-85): when the
wildcard-name set is non-empty and the sentence references one of its
names, the key is the negated literal-chunk count; otherwise `0`. -/
def IntentData._sentence_order (d : IntentData) (sentence : Sentence) : Int :=
  let has_wildcards :=
    if d.wildcard_list_names.isEmpty then false
    else sentence.list_names.any (fun n => d.wildcard_list_names.contains n)
  if has_wildcards then -(sentence.text_chunk_count : Int) else 0

/-- Embeds the cached property `IntentData.sentences` (intents.py:51-70):
parse each text (keeping the source text), then stably sort ascending by
`_sentence_order` (Python `sorted` is a stable sort; `List.mergeSort` is
its stable counterpart here). -/
def IntentData.sentences (d : IntentData) : List Sentence :=
  let sentences := d.sentence_texts.map (fun text => parse_sentence text true)
  sentences.mergeSort (fun a b => decide (d._sentence_order a ≤ d._sentence_order b))

/-- Embeds `Intent` (intents.py:88-93). -/
structure Intent where
  name : String
  data : List IntentData
deriving DecidableEq

/-- Embeds `IntentsSettings` (intents.py:266-270). -/
structure IntentsSettings where
  ignore_whitespace : Bool
deriving DecidableEq

/-- Embeds `Intents` (intents.py:274-294): the aggregate root. The
name-keyed mappings are association lists in document order. -/
structure Intents where
  language : String
  intents : List (String × Intent)
  slot_lists : List (String × SlotList)
  expansion_rules : List (String × Sentence)
  skip_words : List String
  settings : IntentsSettings
deriving DecidableEq

/-- The `settings:` sub-mapping of an input document. -/
structure SettingsSpec where
  ignore_whitespace : Option Bool
deriving DecidableEq

/-- One entry of an intent's `data:` sequence: `sentences` is required
(read with `[]`), the rest optional (read with `.get`)
(intents.py:344-357). -/
structure DataSpec where
  sentences : Option (List String)
  slots : Option (List (String × PyValue))
  requires_context : Option (List (String × PyValue))
  excludes_context : Option (List (String × PyValue))
  expansion_rules : Option (List (String × String))
  response : Option String
deriving DecidableEq

/-- One entry of the `intents:` mapping: `data` is required
(intents.py:358). -/
structure IntentSpec where
  data : Option (List DataSpec)
deriving DecidableEq

/-- The whole input document for `Intents.from_dict`: every key the code
reads, present or absent. -/
structure InputDict where
  language : Option String
  intents : Option (List (String × IntentSpec))
  lists : Option (List (String × ListSpec))
  expansion_rules : Option (List (String × String))
  skip_words : Option (List String)
  settings : Option SettingsSpec
deriving DecidableEq

/-- Embeds `_parse_settings` (intents.py:440-444). -/
def _parse_settings (settings_dict : SettingsSpec) : IntentsSettings :=
  { ignore_whitespace := settings_dict.ignore_whitespace.getD false }

/-- Python `d[key]` on a required key: the value, or a `KeyError` (the
spec's ValidationError). -/
def requiredKey (v : Option α) (key : String) : Except Err α :=
  match v with
  | some x => Except.ok x
  | none => Except.error (Err.keyError key)

/-- Effectful map over a list, failing at the first failing element (the
behaviour of a Python comprehension whose body can raise). -/
def mapExcept (f : α → Except Err β) : List α → Except Err (List β)
  | [] => Except.ok []
  | x :: xs => do
    let y ← f x
    let ys ← mapExcept f xs
    Except.ok (y :: ys)

/-- Decodes one `data:` entry into an `IntentData` (intents.py:344-357):
`sentences` is required, everything else defaulted, local expansion rules
parsed keeping their text, and the shared wildcard-name set attached. -/
def parseDataSpec (wildcard_list_names : List String) (data_dict : DataSpec) :
    Except Err IntentData := do
  let sentence_texts ← requiredKey data_dict.sentences "sentences"
  Except.ok
    { sentence_texts := sentence_texts
      slots := data_dict.slots.getD []
      requires_context := data_dict.requires_context.getD []
      excludes_context := data_dict.excludes_context.getD []
      expansion_rules := (data_dict.expansion_rules.getD []).map
        (fun r => (r.1, parse_sentence r.2 true))
      response := data_dict.response
      wildcard_list_names := wildcard_list_names }

/-- Decodes one entry of the `intents:` mapping into a named `Intent`
(intents.py:340-361): `data` is required, each entry decoded by
`parseDataSpec`. -/
def parseIntentEntry (wildcard_list_names : List String)
    (kv : String × IntentSpec) : Except Err (String × Intent) := do
  let dataSpecs ← requiredKey kv.2.data "data"
  let datas ← mapExcept (parseDataSpec wildcard_list_names) dataSpecs
  Except.ok (kv.1, ({ name := kv.1, data := datas } : Intent))

/-- Decodes one entry of the `lists:` mapping via `_parse_list`
(intents.py:363-366). -/
def parseListEntry (kv : String × ListSpec) : Except Err (String × SlotList) := do
  let sl ← _parse_list kv.2 true
  Except.ok (kv.1, sl)

/-- Embeds `Intents.from_dict` (intents.py:311-375): computes the
wildcard-name set from truthy `wildcard` flags of `lists`, then builds the
aggregate, requiring `language`, `intents`, each intent's `data` and each
data entry's `sentences`, in the source's evaluation order. -/
def Intents.from_dict (input_dict : InputDict) : Except Err Intents := do
  let wildcard_list_names : List String :=
    (input_dict.lists.getD []).filterMap
      (fun kv => if kv.2.wildcard.getD false then some kv.1 else none)
  let language ← requiredKey input_dict.language "language"
  let intentSpecs ← requiredKey input_dict.intents "intents"
  let intents ← mapExcept (parseIntentEntry wildcard_list_names) intentSpecs
  let slot_lists ← mapExcept parseListEntry (input_dict.lists.getD [])
  let expansion_rules := (input_dict.expansion_rules.getD []).map
    (fun r => (r.1, parse_sentence r.2 true))
  Except.ok
    { language := language
      intents := intents
      slot_lists := slot_lists
      expansion_rules := expansion_rules
      skip_words := input_dict.skip_words.getD []
      settings := _parse_settings (input_dict.settings.getD { ignore_whitespace := none }) }

/-! Concrete inputs used by the theorems below. -/

/-- A context-bearing entity value for exercising `EntitySlotList.apply`. -/
def c1Value : TextSlotValue :=
  { text_in := Expression.textChunk "kitchen light"
    value_out := PyValue.str "light.kitchen"
    context := some [("domain", PyValue.str "light")] }

/-- A one-value target list named by `c1List`. -/
def c1Target : TextSlotList := { values := [c1Value] }

/-- An entity slot list whose target name is `"entities"`. -/
def c1List : EntitySlotList :=
  { filters := [{ domain := some "light", device_class := none }]
    target_name := "entities" }

/-- The spec's example target tuples: (text, value, context). -/
def c2Tuples : List (String × PyValue × Option (List (String × PyValue))) :=
  [("a", PyValue.int 1, some [("domain", PyValue.str "light")]),
   ("b", PyValue.int 2, some [("domain", PyValue.str "switch")]),
   ("c", PyValue.int 3, none)]

/-- The spec's example target list, built through `from_tuples`. -/
def c2Target : TextSlotList := TextSlotList.from_tuples c2Tuples true

/-- The spec's example filter: domain `light`, no device class. -/
def c2Filter : EntitySlotFilter := { domain := some "light", device_class := none }

/-- The slot value decoded from the spec's example tuple `("a", 1, light)`. -/
def c2AValue : TextSlotValue :=
  { text_in := Expression.textChunk "a"
    value_out := PyValue.int 1
    context := some [("domain", PyValue.str "light")] }

/-- A list specification whose only key is a `range` with `from = 1`,
`to = 0`: the range branch is selected but construction fails. -/
def c4BadRangeSpec : ListSpec :=
  { values := none
    range := some { rfrom := 1, rto := 0, step := none, type := none }
    wildcard := none
    entities := none }

/-- The spec's example sentence without a wildcard reference. -/
def c5Text1 : String := "play \x7balbum\x7d by \x7bartist\x7d"

/-- The spec's example sentence referencing the wildcard list `room`. -/
def c5Text2 : String := "play \x7balbum\x7d by \x7bartist\x7d in \x7broom\x7d"

/-- The spec's example intent data: both sentences, wildcard set `{room}`. -/
def c5Data : IntentData :=
  { sentence_texts := [c5Text1, c5Text2]
    slots := []
    response := none
    requires_context := []
    excludes_context := []
    expansion_rules := []
    wildcard_list_names := ["room"] }

/-- The same block with an empty wildcard-name set. -/
def c5DataNoWild : IntentData :=
  { sentence_texts := [c5Text1, c5Text2]
    slots := []
    response := none
    requires_context := []
    excludes_context := []
    expansion_rules := []
    wildcard_list_names := [] }

/-! Helper lemmas. -/

/-- mergeSort of a two-element list compares the two elements once. -/
theorem mergeSort_two (le : α → α → Bool) (a b : α) :
    List.mergeSort [a, b] le = if le a b then [a, b] else [b, a] := by
  rw [List.mergeSort]
  simp [List.splitInTwo, List.splitAt_eq, List.merge]

/-- A relation that holds everywhere is pairwise on every list. -/
theorem pairwise_of_total {R : α → α → Prop} (h : ∀ a b, R a b) :
    ∀ l : List α, l.Pairwise R
  | [] => List.Pairwise.nil
  | x :: xs => List.Pairwise.cons (fun b _ => h x b) (pairwise_of_total h xs)

/-- Stability of mergeSort, filter form: the elements satisfying a predicate
whose members are mutually tied under `le` come out of the sort exactly as
they went in. -/
theorem mergeSort_filter_invariant (le : α → α → Bool)
    (htrans : ∀ a b c : α, le a b → le b c → le a c)
    (htotal : ∀ a b : α, le a b || le b a)
    (p : α → Bool) (hp : ∀ a b : α, p a → p b → le a b) (l : List α) :
    (List.mergeSort l le).filter p = l.filter p := by
  have hperm : List.Perm ((List.mergeSort l le).filter p) (l.filter p) :=
    (List.mergeSort_perm l le).filter p
  have hpair : (l.filter p).Pairwise (fun a b => le a b = true) := by
    refine List.pairwise_iff_forall_sublist.mpr ?_
    intro a b hab
    have ha := hab.subset (List.mem_cons_self a [b])
    have hb := hab.subset (List.mem_cons_of_mem a (List.mem_cons_self b []))
    exact hp a b (List.mem_filter.mp ha).2 (List.mem_filter.mp hb).2
  have hsub : List.Sublist (l.filter p) (List.mergeSort l le) :=
    List.sublist_mergeSort htrans htotal hpair (List.filter_sublist l)
  have hself : (l.filter p).filter p = l.filter p :=
    List.filter_eq_self.mpr (fun a ha => (List.mem_filter.mp ha).2)
  have hsub2 : List.Sublist (l.filter p) ((List.mergeSort l le).filter p) := by
    have h := hsub.filter p
    rwa [hself] at h
  exact (hsub2.eq_of_length hperm.length_eq.symm).symm

/-- Bind on a successful `Except` computation applies the continuation. -/
@[simp]
theorem except_bind_ok (a : α) (g : α → Except Err β) :
    (Except.ok a : Except Err α) >>= g = g a := rfl

/-- Bind on a failed `Except` computation propagates the error. -/
@[simp]
theorem except_bind_error (e : Err) (g : α → Except Err β) :
    (Except.error e : Except Err α) >>= g = Except.error e := rfl

/-- Binding after a failed `Except` computation fails. -/
theorem exceptOk_bind_false {e : Except Err α} {g : α → Except Err β}
    (h : exceptOk e = false) : exceptOk (e >>= g) = false := by
  cases e with
  | ok a => simp [exceptOk] at h
  | error err => rfl

/-- Unfolding of `mapExcept` on a cons cell. -/
theorem mapExcept_cons (f : α → Except Err β) (x : α) (xs : List α) :
    mapExcept f (x :: xs) =
      (f x) >>= (fun y =>
        (mapExcept f xs) >>= (fun ys => Except.ok (y :: ys))) := rfl

/-- `mapExcept` fails whenever any element of the list fails. -/
theorem mapExcept_fails_of_mem {f : α → Except Err β} {l : List α} {a : α}
    (ha : a ∈ l) (hfa : exceptOk (f a) = false) :
    exceptOk (mapExcept f l) = false := by
  induction l with
  | nil => cases ha
  | cons x xs ih =>
    rw [mapExcept_cons]
    rcases List.mem_cons.mp ha with rfl | hmem
    · cases hfx : f a with
      | ok y => rw [hfx] at hfa; simp [exceptOk] at hfa
      | error err => simp [hfx, exceptOk]
    · cases hfx : f x with
      | ok y =>
        have htail := ih hmem
        cases hxs : mapExcept f xs with
        | ok ys => rw [hxs] at htail; simp [exceptOk] at htail
        | error err => simp [hfx, hxs, exceptOk]
      | error err => simp [hfx, exceptOk]

/-- Successful range construction when all three invariants hold. -/
theorem mk?_ok (start stop step : Int) (ty : RangeType) (digits words : Bool)
    (h1 : start < stop) (h2 : 0 < step) (h3 : (digits || words) = true) :
    RangeSlotList.mk? start stop step ty digits words
      = Except.ok { start := start, stop := stop, step := step, type := ty,
                    digits := digits, words := words,
                    words_language := none, words_ruleset := none } := by
  simp [RangeSlotList.mk?, h1, h2, h3]

/-- Range construction fails when the bounds or the step are invalid. -/
theorem mk?_fails_of_bad_bounds (start stop step : Int) (ty : RangeType)
    (digits words : Bool) (h : stop ≤ start ∨ step ≤ 0) :
    exceptOk (RangeSlotList.mk? start stop step ty digits words) = false := by
  rw [RangeSlotList.mk?]
  split_ifs with h1 h2 h3 <;> try rfl
  simp only [decide_eq_false_iff_not, not_not] at h1 h2
  exfalso; omega

/-- Range construction fails when both output flags are cleared. -/
theorem mk?_fails_of_no_flags (start stop step : Int) (ty : RangeType) :
    exceptOk (RangeSlotList.mk? start stop step ty false false) = false := by
  rw [RangeSlotList.mk?]
  split_ifs with h1 h2 h3 <;> first | rfl | simp at h3

/-- When the wildcard-name set is non-empty and a sentence references one
of its names, its priority key is the negated literal-chunk count. -/
theorem sentence_order_of_ref (d : IntentData) (s : Sentence)
    (hne : d.wildcard_list_names ≠ [])
    (hany : s.list_names.any (fun n => d.wildcard_list_names.contains n) = true) :
    d._sentence_order s = -(s.text_chunk_count : Int) := by
  have h1 : d.wildcard_list_names.isEmpty = false := by
    cases h : d.wildcard_list_names with
    | nil => exact absurd h hne
    | cons a as => rfl
  rw [IntentData._sentence_order, h1, hany]
  simp

/-- A sentence referencing no wildcard name has priority key zero. -/
theorem sentence_order_of_not_ref (d : IntentData) (s : Sentence)
    (hany : s.list_names.any (fun n => d.wildcard_list_names.contains n) = false) :
    d._sentence_order s = 0 := by
  rw [IntentData._sentence_order, hany]
  cases h : d.wildcard_list_names.isEmpty <;> rfl

/-- The priority-key comparison is transitive. -/
theorem sentenceLE_trans (d : IntentData) : ∀ a b c : Sentence,
    decide (d._sentence_order a ≤ d._sentence_order b) = true →
    decide (d._sentence_order b ≤ d._sentence_order c) = true →
    decide (d._sentence_order a ≤ d._sentence_order c) = true := by
  intro a b c hab hbc
  simp only [decide_eq_true_eq] at hab hbc ⊢
  omega

/-- The priority-key comparison is total. -/
theorem sentenceLE_total (d : IntentData) : ∀ a b : Sentence,
    (decide (d._sentence_order a ≤ d._sentence_order b)
      || decide (d._sentence_order b ≤ d._sentence_order a)) = true := by
  intro a b
  rcases Int.le_total (d._sentence_order a) (d._sentence_order b) with h | h <;> simp [h]

/-! Claim theorems. -/

/-- C1: the claim says `EntitySlotList.apply` returns
`apply_filters(filters, list)` when the mapping binds `target_name` to a
`TextSlotList`, and fails with MissingListError when the name is absent.
The absent case holds, but in the present case the source's walrus
expression binds `target` to the boolean `slot_lists.get(...) is None`, so
`apply_filters` receives `False` and accessing `target.values` raises
`AttributeError` instead of returning the filtered list: the code
contradicts its own docstring and the spec's intent. -/
theorem c1_entity_apply_present_target_crashes :
    EntitySlotList.apply c1List [("entities", SlotList.text c1Target)]
      = Except.error (Err.attributeError "values")
    ∧ exceptOk (EntitySlotList.apply c1List [("entities", SlotList.text c1Target)]) = false
    ∧ EntitySlotList.apply c1List [] = Except.error (Err.missingList "entities")
    ∧ (EntitySlotList.apply_filters c1List.filters c1Target).values = [c1Value] :=
  ⟨rfl, rfl, rfl, rfl⟩

/-- C2: `apply_filters` keeps exactly the target values matched by at least
one filter (logical OR over the filter sequence); on the spec's example
target and the domain-`light` filter the result is exactly the `"a"` value;
an empty filter sequence yields an empty result for every target. -/
theorem c2_apply_filters_or_semantics :
    (∀ (filters : List EntitySlotFilter) (target : TextSlotList) (v : TextSlotValue),
      v ∈ (EntitySlotList.apply_filters filters target).values ↔
        v ∈ target.values ∧ ∃ f ∈ filters, f.apply v = true)
    ∧ (EntitySlotList.apply_filters [c2Filter] c2Target).values = [c2AValue]
    ∧ ∀ target : TextSlotList, (EntitySlotList.apply_filters [] target).values = [] := by
  refine ⟨?_, ?_, ?_⟩
  · intro filters target v
    simp [EntitySlotList.apply_filters, filterValues, List.mem_filter, List.any_eq_true]
  · rfl
  · intro target
    simp [EntitySlotList.apply_filters, filterValues]

/-- C2 witness: the `"a"` value is kept by the domain-`light` filter on the
example target. -/
theorem c2_apply_filters_or_semantics_witness :
    c2AValue ∈ (EntitySlotList.apply_filters [c2Filter] c2Target).values :=
  (c2_apply_filters_or_semantics.1 [c2Filter] c2Target c2AValue).mpr
    ⟨by decide, c2Filter, by decide, by decide⟩

/-- C3: constructing a `RangeSlotList` with `start < stop` and `step > 0`
(and the default digits/words flags) succeeds; `start ≥ stop` or
`step ≤ 0` fails with InvalidRangeError; clearing both `digits` and
`words` fails. -/
theorem c3_range_slot_list_validation :
    (∀ start stop step : Int, start < stop → 0 < step →
      RangeSlotList.mk? start stop step RangeType.number true true
        = Except.ok { start := start, stop := stop, step := step,
                      type := RangeType.number, digits := true, words := true,
                      words_language := none, words_ruleset := none })
    ∧ (∀ (start stop step : Int) (ty : RangeType) (digits words : Bool),
        stop ≤ start ∨ step ≤ 0 →
        exceptOk (RangeSlotList.mk? start stop step ty digits words) = false)
    ∧ (∀ (start stop step : Int) (ty : RangeType),
        exceptOk (RangeSlotList.mk? start stop step ty false false) = false) := by
  refine ⟨?_, ?_, ?_⟩
  · intro start stop step h1 h2
    exact mk?_ok start stop step RangeType.number true true h1 h2 rfl
  · intro start stop step ty digits words h
    exact mk?_fails_of_bad_bounds start stop step ty digits words h
  · intro start stop step ty
    exact mk?_fails_of_no_flags start stop step ty

/-- C3 witness: the three cases at concrete ranges. -/
theorem c3_range_slot_list_validation_witness :
    RangeSlotList.mk? 1 100 1 RangeType.number true true
      = Except.ok { start := 1, stop := 100, step := 1,
                    type := RangeType.number, digits := true, words := true,
                    words_language := none, words_ruleset := none }
    ∧ exceptOk (RangeSlotList.mk? 100 1 1 RangeType.number true true) = false
    ∧ exceptOk (RangeSlotList.mk? 1 100 1 RangeType.number false false) = false :=
  ⟨c3_range_slot_list_validation.1 1 100 1 (by decide) (by decide),
   c3_range_slot_list_validation.2.1 100 1 1 RangeType.number true true (Or.inl (by decide)),
   c3_range_slot_list_validation.2.2 1 100 1 RangeType.number⟩

/-- C6: text with no template syntax decodes to a normalized literal
chunk; text with template syntax decodes to a parsed sentence expression,
never a literal chunk. -/
theorem c6_maybe_parse_template_shape :
    (∀ text : String, is_template text = false →
      _maybe_parse_template text true = Expression.textChunk (normalize_text text))
    ∧ (∀ text : String, is_template text = true →
      _maybe_parse_template text true = Expression.sentence (parse_sentence text false))
    ∧ (∀ (text c : String), is_template text = true →
      _maybe_parse_template text true ≠ Expression.textChunk c) := by
  refine ⟨?_, ?_, ?_⟩
  · intro text h; simp [_maybe_parse_template, h]
  · intro text h; simp [_maybe_parse_template, h]
  · intro text c h; simp [_maybe_parse_template, h]

/-- C6 witness: a plain string becomes its normalized literal chunk, a
templated string becomes a parsed sentence. -/
theorem c6_maybe_parse_template_shape_witness :
    _maybe_parse_template "turn  on" true = Expression.textChunk "turn on"
    ∧ _maybe_parse_template c5Text1 true
        = Expression.sentence (parse_sentence c5Text1 false) :=
  ⟨by rw [c6_maybe_parse_template_shape.1 "turn  on" (by decide)]; rfl,
   c6_maybe_parse_template_shape.2.1 c5Text1 (by decide)⟩

/-- C7: a value with no context (or an empty context mapping) never
matches any filter, and a filter with both fields unset matches every
value carrying a non-empty context. -/
theorem c7_filter_context_requirement :
    (∀ (f : EntitySlotFilter) (v : TextSlotValue), v.context = none → f.apply v = false)
    ∧ (∀ (f : EntitySlotFilter) (v : TextSlotValue), v.context = some [] → f.apply v = false)
    ∧ (∀ (v : TextSlotValue) (ctx : List (String × PyValue)),
        v.context = some ctx → ctx ≠ [] →
        EntitySlotFilter.apply { domain := none, device_class := none } v = true) := by
  refine ⟨?_, ?_, ?_⟩
  · intro f v h; simp [EntitySlotFilter.apply, h]
  · intro f v h; simp [EntitySlotFilter.apply, h]
  · intro v ctx h hne; simp [EntitySlotFilter.apply, h, hne, strTruthy]

/-- C7 witness: the cases at concrete values. -/
theorem c7_filter_context_requirement_witness :
    EntitySlotFilter.apply c2Filter
      { text_in := Expression.textChunk "c", value_out := PyValue.int 3, context := none }
      = false
    ∧ EntitySlotFilter.apply c2Filter
      { text_in := Expression.textChunk "d", value_out := PyValue.int 4, context := some [] }
      = false
    ∧ EntitySlotFilter.apply { domain := none, device_class := none } c1Value = true :=
  ⟨c7_filter_context_requirement.1 c2Filter _ rfl,
   c7_filter_context_requirement.2.1 c2Filter _ rfl,
   c7_filter_context_requirement.2.2 c1Value [("domain", PyValue.str "light")] rfl (by decide)⟩

/-- C9: the filtered value sequence is an order-preserving subsequence of
the target list's value sequence, each kept element being a value of the
target list itself; the target (a pure value here) is not modified. -/
theorem c9_apply_filters_subsequence :
    ∀ (filters : List EntitySlotFilter) (target : TextSlotList),
      List.Sublist (EntitySlotList.apply_filters filters target).values target.values
      ∧ ∀ v ∈ (EntitySlotList.apply_filters filters target).values, v ∈ target.values := by
  intro filters target
  refine ⟨List.filter_sublist target.values, ?_⟩
  intro v hv
  exact (List.filter_sublist target.values).subset hv

/-- C9 witness: on the example target, the kept `"a"` value is a member of
the original value sequence. -/
theorem c9_apply_filters_subsequence_witness :
    c2AValue ∈ c2Target.values :=
  (c9_apply_filters_subsequence [c2Filter] c2Target).2 c2AValue (by decide)

/-- C10: an empty-string `domain` (or `device_class`) is falsy in the
source's truthiness test, so such a filter behaves exactly as if the field
were unset, matching any context-bearing value regardless of the context
entries. -/
theorem c10_empty_string_filter_fields :
    (∀ (v : TextSlotValue) (dc : Option String),
      EntitySlotFilter.apply { domain := some "", device_class := dc } v
        = EntitySlotFilter.apply { domain := none, device_class := dc } v)
    ∧ (∀ (v : TextSlotValue) (dom : Option String),
      EntitySlotFilter.apply { domain := dom, device_class := some "" } v
        = EntitySlotFilter.apply { domain := dom, device_class := none } v)
    ∧ (∀ (v : TextSlotValue) (ctx : List (String × PyValue)),
        v.context = some ctx → ctx ≠ [] →
        EntitySlotFilter.apply { domain := some "", device_class := some "" } v = true) := by
  refine ⟨?_, ?_, ?_⟩
  · intro v dc
    cases h : v.context with
    | none => simp [EntitySlotFilter.apply, h]
    | some ctx => simp [EntitySlotFilter.apply, h, strTruthy]
  · intro v dom
    cases h : v.context with
    | none => simp [EntitySlotFilter.apply, h]
    | some ctx => simp [EntitySlotFilter.apply, h, strTruthy]
  · intro v ctx h hne
    simp [EntitySlotFilter.apply, h, hne, strTruthy]

/-- C10 witness: an all-empty-string filter matches the context-bearing
example value, and agrees with the unset filter on it. -/
theorem c10_empty_string_filter_fields_witness :
    EntitySlotFilter.apply { domain := some "", device_class := some "" } c1Value = true
    ∧ EntitySlotFilter.apply { domain := some "", device_class := none } c1Value
        = EntitySlotFilter.apply { domain := none, device_class := none } c1Value :=
  ⟨c10_empty_string_filter_fields.2.2 c1Value [("domain", PyValue.str "light")] rfl (by decide),
   c10_empty_string_filter_fields.1 c1Value none⟩

/-- C4 counterexample: the claim states that whenever `values` is absent
and `range` is present the decoder's result is a RangeSlotList, for every
list-specification mapping; but on a spec whose only key is
`range: {from: 1, to: 0}` the selected range branch raises
InvalidRangeError, so no RangeSlotList is returned. -/
theorem c4_slot_list_decoder_counterexample :
    _parse_list c4BadRangeSpec true
      = Except.error (Err.invalidRange "start must be less than stop")
    ∧ exceptOk (_parse_list c4BadRangeSpec true) = false
    ∧ c4BadRangeSpec.values = none
    ∧ c4BadRangeSpec.range
        = some { rfrom := 1, rto := 0, step := none, type := none } :=
  ⟨rfl, rfl, rfl, rfl⟩

/-- C4 (amended): the decoder selects exactly one variant by key
precedence: `values` present gives a TextSlotList (even when other keys
are present); else `range` present enters the range branch, which returns
a RangeSlotList when the range type string is recognized and the range
invariants hold, and otherwise fails with the range-construction error
(never falling through to another variant); else a truthy wildcard flag
gives a WildcardSlotList; else `entities` present gives an EntitySlotList;
otherwise decoding fails with UnknownListTypeError. -/
theorem c4_slot_list_decoder_precedence :
    (∀ (spec : ListSpec) (entries : List TextValueSpec), spec.values = some entries →
      _parse_list spec true
        = Except.ok (SlotList.text { values := entries.map (parseTextValue true) }))
    ∧ (∀ (spec : ListSpec) (r : RangeSpec) (ty : RangeType),
        spec.values = none → spec.range = some r →
        RangeType.fromStr (r.type.getD "number") = Except.ok ty →
        r.rfrom < r.rto → 0 < r.step.getD 1 →
        _parse_list spec true = Except.ok (SlotList.range
          { start := r.rfrom, stop := r.rto, step := r.step.getD 1, type := ty,
            digits := true, words := true, words_language := none, words_ruleset := none }))
    ∧ (∀ (spec : ListSpec) (r : RangeSpec),
        spec.values = none → spec.range = some r →
        (r.rto ≤ r.rfrom ∨ r.step.getD 1 ≤ 0) →
        exceptOk (_parse_list spec true) = false)
    ∧ (∀ (spec : ListSpec) (r : RangeSpec) (msg : String),
        spec.values = none → spec.range = some r →
        RangeType.fromStr (r.type.getD "number") = Except.error (Err.valueError msg) →
        exceptOk (_parse_list spec true) = false)
    ∧ (∀ spec : ListSpec, spec.values = none → spec.range = none →
        spec.wildcard.getD false = true → _parse_list spec true = Except.ok SlotList.wildcard)
    ∧ (∀ (spec : ListSpec) (e : EntitiesSpec), spec.values = none → spec.range = none →
        spec.wildcard.getD false = false → spec.entities = some e →
        _parse_list spec true = Except.ok (SlotList.entity
          { filters := filtersOf e.filters, target_name := e.target }))
    ∧ (∀ spec : ListSpec, spec.values = none → spec.range = none →
        spec.wildcard.getD false = false → spec.entities = none →
        _parse_list spec true = Except.error Err.unknownListType) := by
  refine ⟨?_, ?_, ?_, ?_, ?_, ?_, ?_⟩
  · intro spec entries h
    simp [_parse_list, h]
  · intro spec r ty hv hr hty h1 h2
    simp [_parse_list, hv, hr, hty,
      mk?_ok r.rfrom r.rto (r.step.getD 1) ty true true h1 h2 rfl]
  · intro spec r hv hr hbad
    rw [_parse_list]
    simp only [hv, hr]
    cases hty : RangeType.fromStr (r.type.getD "number") with
    | ok ty =>
      simp [hty]
      have hfail := mk?_fails_of_bad_bounds r.rfrom r.rto (r.step.getD 1) ty true true hbad
      cases hmk : RangeSlotList.mk? r.rfrom r.rto (r.step.getD 1) ty true true with
      | ok rl => rw [hmk] at hfail; simp [exceptOk] at hfail
      | error e => simp [hmk, exceptOk]
    | error e => simp [hty, exceptOk]
  · intro spec r msg hv hr hty
    rw [_parse_list]
    simp only [hv, hr]
    simp [hty, exceptOk]
  · intro spec hv hr hw
    simp [_parse_list, hv, hr, hw]
  · intro spec e hv hr hw he
    simp [_parse_list, hv, hr, hw, he]
  · intro spec hv hr hw he
    simp [_parse_list, hv, hr, hw, he]

/-- C4 witness: concrete specs exercising the precedence branches — a spec
carrying both `values` and `range` decodes as a TextSlotList (`values`
wins), a valid lone range decodes as a RangeSlotList, a wildcard spec as a
WildcardSlotList, an entities spec as an EntitySlotList, and the empty
spec fails with UnknownListTypeError. -/
theorem c4_slot_list_decoder_precedence_witness :
    _parse_list
      { values := some [TextValueSpec.plain "on"]
        range := some { rfrom := 1, rto := 0, step := none, type := none }
        wildcard := none, entities := none } true
      = Except.ok (SlotList.text
          { values := [parseTextValue true (TextValueSpec.plain "on")] })
    ∧ _parse_list
      { values := none
        range := some { rfrom := 0, rto := 100, step := none, type := none }
        wildcard := none, entities := none } true
      = Except.ok (SlotList.range
          { start := 0, stop := 100, step := 1, type := RangeType.number,
            digits := true, words := true, words_language := none, words_ruleset := none })
    ∧ _parse_list
      { values := none, range := none, wildcard := some true, entities := none } true
      = Except.ok SlotList.wildcard
    ∧ _parse_list
      { values := none, range := none, wildcard := none
        entities := some { filters := none, target := "all_entities" } } true
      = Except.ok (SlotList.entity { filters := [], target_name := "all_entities" })
    ∧ _parse_list
      { values := none, range := none, wildcard := none, entities := none } true
      = Except.error Err.unknownListType := by
  refine ⟨?_, ?_, ?_, ?_, ?_⟩
  · exact c4_slot_list_decoder_precedence.1 _ [TextValueSpec.plain "on"] rfl
  · exact c4_slot_list_decoder_precedence.2.1 _
      { rfrom := 0, rto := 100, step := none, type := none } RangeType.number
      rfl rfl rfl (by decide) (by decide)
  · exact c4_slot_list_decoder_precedence.2.2.2.2.1 _ rfl rfl rfl
  · exact c4_slot_list_decoder_precedence.2.2.2.2.2.1 _
      { filters := none, target := "all_entities" } rfl rfl rfl rfl
  · exact c4_slot_list_decoder_precedence.2.2.2.2.2.2 _ rfl rfl rfl rfl

/-- C5: the derived sentence sequence is the parsed sentence texts stably
reordered by the priority key: it is a permutation of the parsed texts,
sorted by the key; a sentence referencing a wildcard name (when the
wildcard set is non-empty) is keyed by the negated literal-chunk count,
all other sentences key to the constant zero; the non-referencing
sentences keep their original relative order; with an empty wildcard set
the whole sequence keeps the input order; and on the spec's example the
`room`-referencing sentence is placed first. -/
theorem c5_sentence_prioritization :
    (∀ d : IntentData, List.Perm d.sentences
        (d.sentence_texts.map (fun text => parse_sentence text true)))
    ∧ (∀ d : IntentData, d.sentences.Pairwise
        (fun a b => d._sentence_order a ≤ d._sentence_order b))
    ∧ (∀ (d : IntentData) (s : Sentence), d.wildcard_list_names ≠ [] →
        s.list_names.any (fun n => d.wildcard_list_names.contains n) = true →
        d._sentence_order s = -(s.text_chunk_count : Int))
    ∧ (∀ (d : IntentData) (s : Sentence),
        s.list_names.any (fun n => d.wildcard_list_names.contains n) = false →
        d._sentence_order s = 0)
    ∧ (∀ d : IntentData, d.wildcard_list_names = [] →
        d.sentences = d.sentence_texts.map (fun text => parse_sentence text true))
    ∧ (∀ d : IntentData,
        d.sentences.filter
          (fun s => !(s.list_names.any (fun n => d.wildcard_list_names.contains n)))
        = (d.sentence_texts.map (fun text => parse_sentence text true)).filter
          (fun s => !(s.list_names.any (fun n => d.wildcard_list_names.contains n))))
    ∧ c5Data.sentences = [parse_sentence c5Text2 true, parse_sentence c5Text1 true] := by
  refine ⟨?_, ?_, sentence_order_of_ref, sentence_order_of_not_ref, ?_, ?_, ?_⟩
  · intro d
    exact List.mergeSort_perm _ _
  · intro d
    have h := List.sorted_mergeSort
      (sentenceLE_trans d) (sentenceLE_total d)
      (d.sentence_texts.map (fun text => parse_sentence text true))
    exact h.imp (fun hab => of_decide_eq_true hab)
  · intro d hw
    rw [IntentData.sentences]
    apply List.mergeSort_of_sorted
    apply pairwise_of_total
    intro a b
    have hza := sentence_order_of_not_ref d a (by rw [hw]; simp)
    have hzb := sentence_order_of_not_ref d b (by rw [hw]; simp)
    rw [hza, hzb]
    decide
  · intro d
    have hp : ∀ a b : Sentence,
        (fun s => !(s.list_names.any (fun n => d.wildcard_list_names.contains n))) a = true →
        (fun s => !(s.list_names.any (fun n => d.wildcard_list_names.contains n))) b = true →
        decide (d._sentence_order a ≤ d._sentence_order b) = true := by
      intro a b ha hb
      simp only [Bool.not_eq_true'] at ha hb
      have hza := sentence_order_of_not_ref d a ha
      have hzb := sentence_order_of_not_ref d b hb
      rw [hza, hzb]
      decide
    exact mergeSort_filter_invariant _ (sentenceLE_trans d) (sentenceLE_total d) _ hp _
  · rw [IntentData.sentences]
    rw [show (c5Data.sentence_texts.map fun text => parse_sentence text true) =
      [parse_sentence c5Text1 true, parse_sentence c5Text2 true] from rfl]
    rw [mergeSort_two]
    norm_num
    decide

/-- C5 witness: on the spec's example the wildcard set is non-empty, the
`room` sentence keys to `-3` and the other to `0`; with the wildcard set
emptied the input order is kept. -/
theorem c5_sentence_prioritization_witness :
    c5Data.wildcard_list_names ≠ []
    ∧ IntentData._sentence_order c5Data (parse_sentence c5Text2 true) = -3
    ∧ IntentData._sentence_order c5Data (parse_sentence c5Text1 true) = 0
    ∧ c5DataNoWild.sentences = [parse_sentence c5Text1 true, parse_sentence c5Text2 true] := by
  refine ⟨by decide, ?_, ?_, ?_⟩
  · rw [c5_sentence_prioritization.2.2.1 c5Data (parse_sentence c5Text2 true)
      (by decide) (by decide)]
    decide
  · exact c5_sentence_prioritization.2.2.2.1 c5Data (parse_sentence c5Text1 true) (by decide)
  · rw [c5_sentence_prioritization.2.2.2.2.1 c5DataNoWild rfl]
    rfl

/-- Decoding a data entry fails when its required `sentences` key is
missing. -/
theorem parseDataSpec_fails_no_sentences (w : List String) (dd : DataSpec)
    (h : dd.sentences = none) : exceptOk (parseDataSpec w dd) = false := by
  rw [parseDataSpec]
  apply exceptOk_bind_false
  rw [h]
  rfl

/-- Decoding an intent entry fails when its required `data` key is
missing. -/
theorem parseIntentEntry_fails_no_data (w : List String) (nm : String) (ispec : IntentSpec)
    (h : ispec.data = none) : exceptOk (parseIntentEntry w (nm, ispec)) = false := by
  rw [parseIntentEntry]
  apply exceptOk_bind_false
  show exceptOk (requiredKey ispec.data "data") = false
  rw [h]
  rfl

/-- Decoding an intent entry fails when one of its data entries is missing
the required `sentences` key. -/
theorem parseIntentEntry_fails_no_sentences (w : List String) (nm : String)
    (ispec : IntentSpec) (ds : List DataSpec) (dd : DataSpec)
    (hdata : ispec.data = some ds) (hdd : dd ∈ ds) (hs : dd.sentences = none) :
    exceptOk (parseIntentEntry w (nm, ispec)) = false := by
  rw [parseIntentEntry]
  rw [show (nm, ispec).2.data = ispec.data from rfl, hdata]
  simp only [requiredKey, except_bind_ok]
  apply exceptOk_bind_false
  exact mapExcept_fails_of_mem hdd (parseDataSpec_fails_no_sentences w dd hs)

/-- C8: building the Intents aggregate fails with ValidationError (a
`KeyError` in the source) whenever a required key is missing: the
top-level `language` or `intents`, the `data` key of an intent entry, or
the `sentences` key of a data entry. -/
theorem c8_from_dict_required_keys :
    (∀ input : InputDict, input.language = none →
      exceptOk (Intents.from_dict input) = false)
    ∧ (∀ input : InputDict, input.intents = none →
      exceptOk (Intents.from_dict input) = false)
    ∧ (∀ (input : InputDict) (l : List (String × IntentSpec)) (nm : String)
        (ispec : IntentSpec),
        input.intents = some l → (nm, ispec) ∈ l → ispec.data = none →
        exceptOk (Intents.from_dict input) = false)
    ∧ (∀ (input : InputDict) (l : List (String × IntentSpec)) (nm : String)
        (ispec : IntentSpec) (ds : List DataSpec) (dd : DataSpec),
        input.intents = some l → (nm, ispec) ∈ l → ispec.data = some ds →
        dd ∈ ds → dd.sentences = none →
        exceptOk (Intents.from_dict input) = false) := by
  refine ⟨?_, ?_, ?_, ?_⟩
  · intro input h
    rw [Intents.from_dict]
    apply exceptOk_bind_false
    rw [h]
    rfl
  · intro input h
    rw [Intents.from_dict]
    cases hl : input.language with
    | none =>
      apply exceptOk_bind_false
      rfl
    | some lang =>
      simp only [hl, requiredKey, except_bind_ok]
      apply exceptOk_bind_false
      rw [h]
      rfl
  · intro input l nm ispec hil hmem hdata
    rw [Intents.from_dict]
    cases hl : input.language with
    | none =>
      apply exceptOk_bind_false
      rfl
    | some lang =>
      simp only [hl, hil, requiredKey, except_bind_ok]
      apply exceptOk_bind_false
      exact mapExcept_fails_of_mem hmem (parseIntentEntry_fails_no_data _ nm ispec hdata)
  · intro input l nm ispec ds dd hil hmem hdata hdd hs
    rw [Intents.from_dict]
    cases hl : input.language with
    | none =>
      apply exceptOk_bind_false
      rfl
    | some lang =>
      simp only [hl, hil, requiredKey, except_bind_ok]
      apply exceptOk_bind_false
      exact mapExcept_fails_of_mem hmem
        (parseIntentEntry_fails_no_sentences _ nm ispec ds dd hdata hdd hs)

/-- C8 witness: four concrete documents, each missing one required key,
all rejected. -/
theorem c8_from_dict_required_keys_witness :
    exceptOk (Intents.from_dict
      { language := none, intents := some [], lists := none,
        expansion_rules := none, skip_words := none, settings := none }) = false
    ∧ exceptOk (Intents.from_dict
      { language := some "en", intents := none, lists := none,
        expansion_rules := none, skip_words := none, settings := none }) = false
    ∧ exceptOk (Intents.from_dict
      { language := some "en", intents := some [("TurnOn", { data := none })],
        lists := none, expansion_rules := none, skip_words := none,
        settings := none }) = false
    ∧ exceptOk (Intents.from_dict
      { language := some "en"
        intents := some [("TurnOn",
          { data := some [{ sentences := none, slots := none,
                            requires_context := none, excludes_context := none,
                            expansion_rules := none, response := none }] })]
        lists := none, expansion_rules := none, skip_words := none,
        settings := none }) = false :=
  ⟨c8_from_dict_required_keys.1 _ rfl,
   c8_from_dict_required_keys.2.1 _ rfl,
   c8_from_dict_required_keys.2.2.1 _ _ "TurnOn" { data := none } rfl
     (List.mem_cons_self _ _) rfl,
   c8_from_dict_required_keys.2.2.2 _ _ "TurnOn" _ _
     { sentences := none, slots := none, requires_context := none,
       excludes_context := none, expansion_rules := none, response := none }
     rfl (List.mem_cons_self _ _) rfl (List.mem_cons_self _ _) rfl⟩

end Hassil
